import Mathlib

/-!
Verification of `src/lambda/weekly_build_scheduler.py` (Signiant/bob-the-builder).

The Python source is shallowly embedded below.  Remote HTTP responses are
inputs: each function takes the (already parsed) response it would have
received.  Python exceptions are modelled with `Except PyErr`; a function
that logs and returns normally produces `.ok`.  The module constants
`SCHEDULE` (cron expression) is passed as an explicit `cron` argument;
`WORKSPACE` only affects URL strings and is not modelled.
-/

namespace WeeklyBuildScheduler

instance {ε α : Type} [DecidableEq ε] [DecidableEq α] : DecidableEq (Except ε α) := fun x y =>
  match x, y with
  | .ok a, .ok b =>
    if h : a = b then isTrue (h ▸ rfl) else isFalse (fun hc => h (Except.ok.inj hc))
  | .error e, .error f =>
    if h : e = f then isTrue (h ▸ rfl) else isFalse (fun hc => h (Except.error.inj hc))
  | .ok _, .error _ => isFalse (fun hc => Except.noConfusion hc)
  | .error _, .ok _ => isFalse (fun hc => Except.noConfusion hc)

/-- Python exceptions that the embedded code can raise. -/
inductive PyErr where
  | typeError   -- e.g. iterating over `None`
  | indexError  -- e.g. `[][0]`
  | valueError  -- e.g. `datetime.strptime` on a non-matching string
deriving DecidableEq, Repr

/-- The body of an HTTP response to a mutating request (POST/DELETE), as the
source inspects it: either `json.loads` raises `JSONDecodeError`, or it yields
an object that may carry an `"error"` envelope with a message. -/
inductive JsonBody where
  | invalid
  | obj (error : Option String)
deriving DecidableEq, Repr

/-- An HTTP response to a mutating request: body plus the fields the source
reads (`status_code`, `reason`). -/
structure HttpResponse where
  body : JsonBody
  status_code : Nat
  reason : String
deriving DecidableEq, Repr

/-- The response to a list-style GET (`branches`, `schedules`, `pipelines`):
non-JSON body, an `"error"` envelope, or a parsed `"values"` list. -/
inductive ListResponse (α : Type) where
  | invalid (reason : String)
  | errorEnvelope (message : String)
  | ok (values : List α)
deriving DecidableEq, Repr

/-- A branch record, of which the source reads only `"name"`. -/
structure Branch where
  name : String
deriving DecidableEq, Repr

/-- A scheduled-pipeline record as the source reads it: `cron_pattern`,
`target.selector.pattern` (flattened to `target_pattern`) and `uuid`. -/
structure Schedule where
  cron_pattern : String
  target_pattern : String
  uuid : String
deriving DecidableEq, Repr

/-- A pipeline (build execution) record as the source reads it:
`created_on` and `trigger.name` (flattened to `trigger_name`). -/
structure Pipeline where
  created_on : String
  trigger_name : String
deriving DecidableEq, Repr

/-! ## Model of the `datetime` standard library, for the fixed format
`'%Y-%m-%d %H:%M:%S.%f'` used at `check_development_status`. -/

/-- A naive `datetime` value. -/
structure DateTime where
  year : Nat
  month : Nat
  day : Nat
  hour : Nat
  minute : Nat
  second : Nat
  usec : Nat
deriving DecidableEq, Repr

def isLeap (y : Nat) : Bool :=
  y % 4 = 0 && (y % 100 ≠ 0 || y % 400 = 0)

def daysInMonth (y m : Nat) : Nat :=
  if m = 2 then (if isLeap y then 29 else 28)
  else if m = 4 ∨ m = 6 ∨ m = 9 ∨ m = 11 then 30
  else 31

/-- Days in the months of year `y` strictly before month `m`. -/
def daysBeforeMonth (y m : Nat) : Nat :=
  ((List.range (m - 1)).map (fun k => daysInMonth y (k + 1))).sum

/-- Proleptic-Gregorian ordinal of a date, as `date.toordinal`
(0001-01-01 is day 1). -/
def toOrdinal (y m d : Nat) : Nat :=
  365 * (y - 1) + (y - 1) / 4 - (y - 1) / 100 + (y - 1) / 400
    + daysBeforeMonth y m + d

/-- A `datetime` as a number of microseconds, so that subtraction of two
`DateTime`s agrees with Python `datetime` subtraction. -/
def toMicro (t : DateTime) : Nat :=
  ((toOrdinal t.year t.month t.day) * 86400
    + t.hour * 3600 + t.minute * 60 + t.second) * 1000000 + t.usec

def isDigits (cs : List Char) : Bool := cs.all (·.isDigit)

def natOfDigits (cs : List Char) : Nat :=
  cs.foldl (fun a c => 10 * a + (c.toNat - 48)) 0

/-- Parse a run of digits of length in `[minLen, maxLen]` whose value lies in
`[lo, hi]`, as the corresponding `strptime` field does. -/
def parseNum (minLen maxLen lo hi : Nat) (cs : List Char) : Option Nat :=
  if minLen ≤ cs.length ∧ cs.length ≤ maxLen ∧ isDigits cs then
    let n := natOfDigits cs
    if lo ≤ n ∧ n ≤ hi then some n else none
  else none

/-- Parse the `%f` field: 1 to 6 digits, right-padded with zeros to
microseconds. -/
def parseFrac (cs : List Char) : Option Nat :=
  if 1 ≤ cs.length ∧ cs.length ≤ 6 ∧ isDigits cs then
    some (natOfDigits cs * 10 ^ (6 - cs.length))
  else none

/-- `str.split(sep)` for a single-character separator (Python semantics:
`"".split(sep) == [""]`). -/
def splitOnChar (sep : Char) : List Char → List (List Char)
  | [] => [[]]
  | c :: cs =>
    let r := splitOnChar sep cs
    if c = sep then [] :: r
    else
      match r with
      | [] => [[c]]
      | g :: gs => (c :: g) :: gs

/-- Model of `datetime.strptime(s, '%Y-%m-%d %H:%M:%S.%f')`: `none` models the
`ValueError` the library raises on a non-matching string (in particular when
the fractional-second part is missing), `some` the parsed value.  Field
ranges follow CPython: 4-digit year ≥ 1, month 1-12, day valid for the month,
hour 0-23, minute and second 0-59, 1-6 fractional digits. -/
def parseDateTime (cs : List Char) : Option DateTime :=
  match splitOnChar ' ' cs with
  | [datePart, timePart] =>
    match splitOnChar '-' datePart with
    | [ys, ms, ds] =>
      match splitOnChar ':' timePart with
      | [hs, mins, ss] =>
        match splitOnChar '.' ss with
        | [secs, fracs] => do
          let y ← parseNum 4 4 1 9999 ys
          let mo ← parseNum 1 2 1 12 ms
          let d ← parseNum 1 2 1 31 ds
          let h ← parseNum 1 2 0 23 hs
          let mi ← parseNum 1 2 0 59 mins
          let s ← parseNum 1 2 0 59 secs
          let us ← parseFrac fracs
          if d ≤ daysInMonth y mo then
            some ⟨y, mo, d, h, mi, s, us⟩
          else none
        | _ => none
      | _ => none
    | _ => none
  | _ => none

/-! ## Activity Classifier (`check_development_status`, lines 221-256) -/

/-- `created_on.replace("T", " ").replace("Z", "")`: both patterns are single
characters, so the first call is a character map and the second a filter. -/
def pyReplaceTZ (s : String) : List Char :=
  (s.data.map (fun c => if c = 'T' then ' ' else c)).filter (fun c => c ≠ 'Z')

/-- The recency window as a number of microseconds:
`timedelta(minutes=2)` under the test flag, else `timedelta(weeks=1)`. -/
def windowMicro (test : Bool) : Int :=
  if test then 120000000 else 604800000000

/-- The loop of `check_development_status`, with the running
`recent_pipelines` counter explicit.  `now` is the evaluation instant (the
source re-reads the wall clock each iteration; the model uses one instant). -/
def checkLoop (now : DateTime) (test : Bool) : Nat → List Pipeline → Except PyErr Bool
  | _, [] => .ok false
  | recent_pipelines, p :: rest =>
    match parseDateTime (pyReplaceTZ p.created_on) with
    | none => .error .valueError
    | some creation_date =>
      if (toMicro now : Int) - toMicro creation_date ≤ windowMicro test then
        if p.trigger_name ≠ "SCHEDULE" ∨ recent_pipelines + 1 > 1 then .ok true
        else checkLoop now test (recent_pipelines + 1) rest
      else checkLoop now test recent_pipelines rest

/-- `check_development_status(pipelines, test)`; `now` is the evaluation
instant read from the clock. -/
def check_development_status (pipelines : List Pipeline) (now : DateTime)
    (test : Bool) : Except PyErr Bool :=
  checkLoop now test 0 pipelines

/-- Whether a pipeline's creation time parses and falls within the recency
window of `now`. -/
def isRecent (now : DateTime) (test : Bool) (p : Pipeline) : Bool :=
  match parseDateTime (pyReplaceTZ p.created_on) with
  | none => false
  | some c => decide ((toMicro now : Int) - toMicro c ≤ windowMicro test)

/-- Declarative verdict: at least two recent executions, or some recent
execution whose trigger is not `"SCHEDULE"`. -/
def devVerdict (now : DateTime) (test : Bool) (ps : List Pipeline) : Bool :=
  decide (2 ≤ ps.countP (isRecent now test))
    || ps.any (fun p => isRecent now test p && decide (p.trigger_name ≠ "SCHEDULE"))

/-! ## Schedule Repository (`get_default_branch`, `get_schedules`,
`delete_schedule`, `create_schedule`, lines 22-218) -/

/-- `get_default_branch(repo_slug)` (lines 22-58).  The response is the
branch list already filtered server-side to names `"main"` / `"master"` by
the request's `q` parameter.  An error envelope or a non-JSON body logs and
returns `None`; otherwise the source evaluates `branches[0]["name"]`, which
raises `IndexError` when `values` is empty. -/
def get_default_branch (resp : ListResponse Branch) : Except PyErr (Option String) :=
  match resp with
  | .errorEnvelope _ => .ok none
  | .invalid _ => .ok none
  | .ok [] => .error .indexError
  | .ok (b :: _) => .ok (some b.name)

/-- `get_schedules(repo_slug)` (lines 61-94): `None` on an error envelope or
a non-JSON body, else the `values` list. -/
def get_schedules (resp : ListResponse Schedule) : Option (List Schedule) :=
  match resp with
  | .errorEnvelope _ => none
  | .invalid _ => none
  | .ok vs => some vs

/-- The match test of lines 122 and 168:
`schedule['cron_pattern'] == SCHEDULE and
schedule['target']['selector']['pattern'] == default_branch`.  In Python a
string never equals `None`, hence the comparison with `some`. -/
def scheduleMatches (cron : String) (default_branch : Option String)
    (s : Schedule) : Bool :=
  s.cron_pattern == cron && some s.target_pattern == default_branch

/-- The scan of lines 120-150: issue a DELETE for the first schedule that
matches, then `break`.  Returns the uuids DELETEd.  The DELETE response
(`delResp`) determines only which log line follows (error log plus early
return, versus `break` and the final debug line); it issues no further
requests either way. -/
def deleteScan (cron : String) (default_branch : Option String)
    (delResp : String → HttpResponse) : List Schedule → List String
  | [] => []
  | s :: rest =>
    if scheduleMatches cron default_branch s then [s.uuid]
    else deleteScan cron default_branch delResp rest

/-- `delete_schedule(repo_slug, dry_run)` (lines 97-152), returning the list
of uuids for which a DELETE request was issued. -/
def delete_schedule (cron : String) (branchResp : ListResponse Branch)
    (schedResp : ListResponse Schedule) (dry_run : Bool)
    (delResp : String → HttpResponse) : Except PyErr (List String) :=
  match get_default_branch branchResp with
  | .error e => .error e   -- an exception in the lookup propagates
  | .ok default_branch =>
    match get_schedules schedResp with
    | none => .ok []      -- logs (a failure message, or "" in dry-run), returns
    | some schedules =>
      if dry_run then .ok []   -- logs eligibility, returns
      else .ok (deleteScan cron default_branch delResp schedules)

/-- Outcome of `create_schedule`, distinguishing which exit was taken.
A POST request is issued exactly in the `postFailed` / `createdOk` cases. -/
inductive CreateOutcome where
  | duplicateExists   -- lines 167-170: duplicate found, error logged, return
  | eligibleDryRun    -- lines 172-174: dry-run eligibility logged, return
  | postFailed        -- POST issued; error envelope or non-JSON response logged
  | createdOk         -- POST issued; success debug line logged
deriving DecidableEq, Repr

/-- Whether a `create_schedule` outcome issued a mutating POST request. -/
def CreateOutcome.issuedPost : CreateOutcome → Bool
  | .duplicateExists => false
  | .eligibleDryRun => false
  | .postFailed => true
  | .createdOk => true

/-- `create_schedule(repo_slug, dry_run)` (lines 155-218).  Note the source
iterates `schedules` without a `None` check, so a failed schedule fetch
raises `TypeError` (`'NoneType' object is not iterable`); and the duplicate
scan (lines 167-170) runs before the dry-run branch (lines 172-174). -/
def create_schedule (cron : String) (branchResp : ListResponse Branch)
    (schedResp : ListResponse Schedule) (dry_run : Bool)
    (postResp : HttpResponse) : Except PyErr CreateOutcome :=
  match get_default_branch branchResp with
  | .error e => .error e   -- an exception in the lookup propagates
  | .ok default_branch =>
    match get_schedules schedResp with
    | none => .error .typeError
    | some schedules =>
      if schedules.any (scheduleMatches cron default_branch) then
        .ok .duplicateExists
      else if dry_run then
        .ok .eligibleDryRun
      else
        match postResp.body with
        | .obj (some _) => .ok .postFailed
        | .invalid => .ok .postFailed
        | .obj none => .ok .createdOk

/-! ## Build History Reader (`get_latest_pipelines`, lines 268-305) -/

/-- `get_latest_pipelines(repo_slug)`: `None` on an error envelope or a
non-JSON body, else the `values` list (most-recent-first per the request's
sort parameter). -/
def get_latest_pipelines (resp : ListResponse Pipeline) : Option (List Pipeline) :=
  match resp with
  | .errorEnvelope _ => none
  | .invalid _ => none
  | .ok vs => some vs

/-! ## Override Filter (`match_override`, lines 308-321).
`re.compile` of a pattern string is modelled as the compiled regular
expression itself (`RegularExpression Char`); `re.search` is unanchored:
it succeeds iff some contiguous substring is in the pattern's language. -/

/-- `re.search(pattern, s) is not None`: some suffix of `s` has a prefix
matched by the pattern. -/
def reSearch (p : RegularExpression Char) (s : List Char) : Bool :=
  s.tails.any fun suf => suf.inits.any fun t => p.rmatch t

/-- `match_override(repo_slug, override)`: first match wins (the loop's
early `return True` is `List.any`). -/
def match_override (repo_slug : String)
    (override : List (RegularExpression Char)) : Bool :=
  override.any fun pattern => reSearch pattern repo_slug.data

/-! ## Repository Source Catalog Client (`get_active_services`, lines 324-363) -/

/-- A service-catalog entry, of which the source reads
`service['attributes']['schema']['links']` (a list of links; only each
link's `url` matters here). -/
structure Service where
  links : List String
deriving DecidableEq, Repr

/-- One page of `list_service_definitions`: an `"errors"` envelope or a
`"data"` list. -/
inductive CatalogResponse where
  | errors (message : String)
  | data (entries : List Service)
deriving DecidableEq, Repr

/-- Lines 351-355: take the last link's URL, split on `"/"`, read component
4, and keep it unless it equals `"workspace"`.  (An empty `links` list or a
URL with fewer than 5 components would raise in Python; neither occurs in
catalog data and they are not modelled.) -/
def extractSlug (service : Service) : Option String :=
  let url_components := (service.links.getLastD "").splitOn "/"
  if url_components.getD 4 "" = "workspace" then none
  else some (url_components.getD 4 "")

/-- The `while True` pagination loop of lines 339-361, with the `services`
accumulator explicit and a fuel bound standing for the unbounded loop. -/
def catalogLoop (fetch : Nat → CatalogResponse) :
    Nat → Nat → List String → List String
  | 0, _, services => services
  | fuel + 1, page, services =>
    match fetch page with
    | .errors _ => services
    | .data entries =>
      let services := services ++ entries.filterMap extractSlug
      if entries.isEmpty then services
      else catalogLoop fetch fuel (page + 1) services

/-- `get_active_services()`. -/
def get_active_services (fetch : Nat → CatalogResponse) (fuel : Nat) : List String :=
  catalogLoop fetch fuel 0 []

/-- The catalog entries of the pages the loop processes, in order
(declarative counterpart of `catalogLoop`, without the accumulator). -/
def catalogEntries (fetch : Nat → CatalogResponse) : Nat → Nat → List Service
  | 0, _ => []
  | fuel + 1, page =>
    match fetch page with
    | .errors _ => []
    | .data entries =>
      if entries.isEmpty then entries
      else entries ++ catalogEntries fetch fuel (page + 1)

/-! ## Reconciler (`process_services`, lines 366-403) -/

/-- All remote state a run can observe, per repository slug (and, for the
catalog, per page). -/
structure World where
  catalog : Nat → CatalogResponse
  pipelinesResp : String → ListResponse Pipeline
  branchesResp : String → ListResponse Branch
  schedulesResp : String → ListResponse Schedule
  deleteResp : String → String → HttpResponse
  createResp : String → HttpResponse

/-- A mutating request issued while processing one repository. -/
inductive Invocation where
  | deleteReq (uuid : String)
  | createReq
deriving DecidableEq, Repr

/-- The mutating requests of a `delete_schedule` result. -/
def deleteInvs (uuids : List String) : List Invocation :=
  uuids.map .deleteReq

/-- The mutating requests of a `create_schedule` outcome. -/
def createInvs (out : CreateOutcome) : List Invocation :=
  if out.issuedPost then [.createReq] else []

/-- The body of the per-service loop of `process_services` (lines 382-401),
returning the mutating requests issued for this service.  `if not pipelines`
skips both `None` (fetch failure) and `[]` (no history).  The override check
runs only when the override list is non-empty (`if override:`). -/
def processOne (cron : String) (w : World)
    (override : List (RegularExpression Char)) (dry_run test : Bool)
    (now : DateTime) (service : String) : Except PyErr (List Invocation) :=
  if !override.isEmpty && match_override service override then .ok []
  else
    match get_latest_pipelines (w.pipelinesResp service) with
    | none => .ok []
    | some [] => .ok []
    | some (p :: ps) =>
      match check_development_status (p :: ps) now test with
      | .error e => .error e   -- an exception in classification propagates
      | .ok in_development =>
        if in_development then
          (delete_schedule cron (w.branchesResp service) (w.schedulesResp service)
            dry_run (w.deleteResp service)).map deleteInvs
        else
          (create_schedule cron (w.branchesResp service) (w.schedulesResp service)
            dry_run (w.createResp service)).map createInvs

/-- The `for` loop of `process_services`, pairing each service with the
mutating requests issued for it; an uncaught Python exception aborts the
whole loop, as in the source (there is no `try` around the body). -/
def processList (cron : String) (w : World)
    (override : List (RegularExpression Char)) (dry_run test : Bool)
    (now : DateTime) : List String → Except PyErr (List (String × List Invocation))
  | [] => .ok []
  | service :: rest =>
    match processOne cron w override dry_run test now service with
    | .error e => .error e   -- an uncaught exception aborts the whole loop
    | .ok invs =>
      match processList cron w override dry_run test now rest with
      | .error e => .error e
      | .ok others => .ok ((service, invs) :: others)

/-- Lines 377-380: use the caller-supplied list when it is non-empty
(Python truthiness), else enumerate the catalog. -/
def activeServices (repositories : List String)
    (fetch : Nat → CatalogResponse) (fuel : Nat) : List String :=
  if !repositories.isEmpty then repositories
  else get_active_services fetch fuel

/-- `process_services(repositories, override, dry_run, test)`. -/
def process_services (cron : String) (w : World) (repositories : List String)
    (override : List (RegularExpression Char)) (dry_run test : Bool)
    (now : DateTime) (fuel : Nat) : Except PyErr (List (String × List Invocation)) :=
  processList cron w override dry_run test now
    (activeServices repositories w.catalog fuel)

/-! ## Theorems: Activity Classifier -/


/-- Characterization of the classifier loop: when every timestamp parses and
the running counter is at most 1 (an invariant of the loop), the result is
"at least two recent executions counting the counter, or a recent execution
with a non-`SCHEDULE` trigger". -/
theorem checkLoop_eq (now : DateTime) (test : Bool) :
    ∀ (ps : List Pipeline) (c : Nat), c ≤ 1 →
    (∀ p ∈ ps, (parseDateTime (pyReplaceTZ p.created_on)).isSome) →
    checkLoop now test c ps =
      .ok (decide (2 ≤ c + ps.countP (isRecent now test))
        || ps.any fun p => isRecent now test p && decide (p.trigger_name ≠ "SCHEDULE")) := by
  intro ps
  induction ps with
  | nil =>
    intro c hc _
    simp only [checkLoop, List.countP_nil, List.any_nil, Bool.or_false, Nat.add_zero]
    rw [decide_eq_false (by omega)]
  | cons p rest ih =>
    intro c hc hparse
    obtain ⟨cd, hp⟩ :=
      Option.isSome_iff_exists.mp (hparse p (List.mem_cons_self ..))
    have hrest : ∀ q ∈ rest, (parseDateTime (pyReplaceTZ q.created_on)).isSome :=
      fun q hq => hparse q (List.mem_cons_of_mem _ hq)
    simp only [checkLoop, hp]
    by_cases hw : (toMicro now : Int) - toMicro cd ≤ windowMicro test
    · have hrec : isRecent now test p = true := by simp [isRecent, hp, hw]
      rw [if_pos hw]
      by_cases ht : p.trigger_name = "SCHEDULE"
      · have hcond : (p.trigger_name ≠ "SCHEDULE" ∨ c + 1 > 1) ↔ c = 1 := by
          constructor
          · rintro (hne | hgt)
            · exact absurd ht hne
            · omega
          · intro h1; right; omega
        rcases Nat.le_one_iff_eq_zero_or_eq_one.mp hc with hc0 | hc1
        · subst hc0
          rw [if_neg (by rw [hcond]; omega)]
          rw [ih 1 (by omega) hrest]
          have h2 : decide (2 ≤ 1 + List.countP (isRecent now test) rest) =
              decide (2 ≤ 0 + List.countP (isRecent now test) (p :: rest)) := by
            rw [decide_eq_decide, List.countP_cons_of_pos _ _ hrec]
            omega
          rw [h2]
          congr 1
          simp [List.any_cons, hrec, ht]
        · subst hc1
          rw [if_pos (hcond.mpr rfl)]
          have h2 : 2 ≤ 1 + List.countP (isRecent now test) (p :: rest) := by
            rw [List.countP_cons_of_pos _ _ hrec]
            omega
          rw [decide_eq_true h2]
          simp
      · rw [if_pos (Or.inl ht)]
        have hf : (isRecent now test p && decide (p.trigger_name ≠ "SCHEDULE")) = true := by
          simp [hrec, ht]
        simp only [List.any_cons, hf, Bool.true_or, Bool.or_true]
    · have hrec : isRecent now test p = false := by simp [isRecent, hp, hw]
      rw [if_neg hw, ih c hc hrest]
      rw [List.countP_cons_of_neg _ _ (by simp [hrec])]
      congr 1
      simp [List.any_cons, hrec]

/-- C1: for every list of build executions whose creation timestamps parse,
the verdict of `check_development_status` is "in development" exactly when at
least two executions fall within the recency window of the evaluation
instant, or some execution within the window has a trigger kind other than
`"SCHEDULE"`; in particular an empty list, or a single recent
`"SCHEDULE"`-triggered execution, yields "not in development". -/
theorem claim_C1_classifier_verdict (ps : List Pipeline) (now : DateTime) (test : Bool)
    (h : ∀ p ∈ ps, (parseDateTime (pyReplaceTZ p.created_on)).isSome) :
    check_development_status ps now test =
      .ok (decide (2 ≤ ps.countP (isRecent now test) ∨
        ∃ p ∈ ps, isRecent now test p = true ∧ p.trigger_name ≠ "SCHEDULE")) := by
  rw [check_development_status, checkLoop_eq now test ps 0 (by omega) h]
  congr 1
  rw [Bool.eq_iff_iff]
  simp only [Bool.or_eq_true, decide_eq_true_eq, List.any_eq_true, Bool.and_eq_true,
    Nat.zero_add]

/-- C7: permuting the execution list does not change the classifier's
verdict (whenever every execution's creation timestamp parses, so that a
verdict is returned at all): the verdict is a pure counting/existence
property of the recent set. -/
theorem claim_C7_order_independence (ps ps' : List Pipeline) (now : DateTime) (test : Bool)
    (hperm : ps.Perm ps')
    (h : ∀ p ∈ ps, (parseDateTime (pyReplaceTZ p.created_on)).isSome) :
    check_development_status ps now test = check_development_status ps' now test := by
  have h' : ∀ p ∈ ps', (parseDateTime (pyReplaceTZ p.created_on)).isSome :=
    fun p hp => h p (hperm.mem_iff.mpr hp)
  rw [check_development_status, check_development_status,
    checkLoop_eq now test ps 0 (by omega) h, checkLoop_eq now test ps' 0 (by omega) h']
  rw [hperm.countP_eq]
  congr 2
  rw [Bool.eq_iff_iff]
  simp only [List.any_eq_true, Bool.and_eq_true]
  constructor
  · rintro ⟨p, hp, hf⟩
    exact ⟨p, hperm.mem_iff.mp hp, hf⟩
  · rintro ⟨p, hp, hf⟩
    exact ⟨p, hperm.mem_iff.mpr hp, hf⟩

/-- C10: the classifier returns a verdict whenever every execution's
`created_on` string parses under the fixed `'%Y-%m-%d %H:%M:%S.%f'` format
(after the `T`/`Z` replacements, with the fractional-second part present),
and on an input whose timestamp lacks the fractional-second part it raises
`ValueError` instead of returning a verdict. -/
theorem claim_C10_parse_precondition :
    (∀ (ps : List Pipeline) (now : DateTime) (test : Bool),
      (∀ p ∈ ps, (parseDateTime (pyReplaceTZ p.created_on)).isSome) →
      ∃ b, check_development_status ps now test = .ok b) ∧
    check_development_status [⟨"2024-01-08T00:00:00Z", "PUSH"⟩]
      ⟨2024, 1, 10, 0, 0, 0, 0⟩ false = .error .valueError := by
  constructor
  · intro ps now test h
    exact ⟨_, by rw [check_development_status, checkLoop_eq now test ps 0 (by omega) h]⟩
  · decide

/-- Witness for C1 at a concrete input: two recent `"SCHEDULE"`-triggered
executions classify as "in development". -/
theorem claim_C1_classifier_verdict_witness :
    check_development_status
      [⟨"2024-01-08T00:00:00.0Z", "SCHEDULE"⟩, ⟨"2024-01-09T00:00:00.0Z", "SCHEDULE"⟩]
      ⟨2024, 1, 10, 0, 0, 0, 0⟩ false =
      .ok (decide (2 ≤ List.countP (isRecent ⟨2024, 1, 10, 0, 0, 0, 0⟩ false)
          [⟨"2024-01-08T00:00:00.0Z", "SCHEDULE"⟩, ⟨"2024-01-09T00:00:00.0Z", "SCHEDULE"⟩] ∨
        ∃ p ∈ [Pipeline.mk "2024-01-08T00:00:00.0Z" "SCHEDULE",
               Pipeline.mk "2024-01-09T00:00:00.0Z" "SCHEDULE"],
          isRecent ⟨2024, 1, 10, 0, 0, 0, 0⟩ false p = true ∧ p.trigger_name ≠ "SCHEDULE")) :=
  claim_C1_classifier_verdict _ _ _ (by decide)

/-- Witness for C7 at a concrete input: swapping two executions leaves the
verdict unchanged. -/
theorem claim_C7_order_independence_witness :
    check_development_status
      [⟨"2024-01-09T00:00:00.0Z", "PUSH"⟩, ⟨"2024-01-08T00:00:00.0Z", "SCHEDULE"⟩]
      ⟨2024, 1, 10, 0, 0, 0, 0⟩ false =
    check_development_status
      [⟨"2024-01-08T00:00:00.0Z", "SCHEDULE"⟩, ⟨"2024-01-09T00:00:00.0Z", "PUSH"⟩]
      ⟨2024, 1, 10, 0, 0, 0, 0⟩ false :=
  claim_C7_order_independence _ _ _ _
    (List.Perm.swap (⟨"2024-01-08T00:00:00.0Z", "SCHEDULE"⟩ : Pipeline)
      ⟨"2024-01-09T00:00:00.0Z", "PUSH"⟩ []) (by decide)

/-- Witness for C10 at a concrete input: a parsing timestamp yields a
verdict; the same timestamp without fractional seconds raises. -/
theorem claim_C10_parse_precondition_witness :
    (∃ b, check_development_status [⟨"2024-01-08T00:00:00.0Z", "PUSH"⟩]
      ⟨2024, 1, 10, 0, 0, 0, 0⟩ false = .ok b) ∧
    check_development_status [⟨"2024-01-08T00:00:00Z", "PUSH"⟩]
      ⟨2024, 1, 10, 0, 0, 0, 0⟩ false = .error .valueError :=
  ⟨claim_C10_parse_precondition.1 _ _ _ (by decide), claim_C10_parse_precondition.2⟩

/-! ## Theorems: Schedule Repository -/

/-- The deletion scan deletes exactly the first matching schedule. -/
theorem deleteScan_eq_find (cron : String) (db : Option String)
    (delResp : String → HttpResponse) (scheds : List Schedule) :
    deleteScan cron db delResp scheds =
      match scheds.find? (scheduleMatches cron db) with
      | some s => [s.uuid]
      | none => [] := by
  induction scheds with
  | nil => rfl
  | cons s rest ih =>
    by_cases h : scheduleMatches cron db s
    · rw [deleteScan, if_pos h, List.find?_cons_of_pos _ h]
    · rw [deleteScan, if_neg h, List.find?_cons_of_neg _ h, ih]

/-- C6: given a resolved default branch and a fetched schedule list,
`delete_schedule` returns normally; it issues at most one deletion request,
namely for the first schedule matching the fixed cron expression and the
resolved default branch; and when no schedule matches (or in dry-run) it
issues zero mutating calls. -/
theorem claim_C6_delete_first_match (cron : String) (branchResp : ListResponse Branch)
    (schedResp : ListResponse Schedule) (dry_run : Bool)
    (delResp : String → HttpResponse) (db : Option String) (scheds : List Schedule)
    (hb : get_default_branch branchResp = .ok db)
    (hs : get_schedules schedResp = some scheds) :
    delete_schedule cron branchResp schedResp dry_run delResp =
      .ok (if dry_run then []
        else match scheds.find? (scheduleMatches cron db) with
          | some s => [s.uuid]
          | none => []) ∧
    (∀ ds, delete_schedule cron branchResp schedResp dry_run delResp = .ok ds →
      ds.length ≤ 1) ∧
    (scheds.find? (scheduleMatches cron db) = none →
      delete_schedule cron branchResp schedResp dry_run delResp = .ok []) := by
  have hmain : delete_schedule cron branchResp schedResp dry_run delResp =
      .ok (if dry_run then []
        else match scheds.find? (scheduleMatches cron db) with
          | some s => [s.uuid]
          | none => []) := by
    rw [delete_schedule, hb, hs]
    simp only [deleteScan_eq_find]
    by_cases hd : dry_run <;> simp [hd]
  refine ⟨hmain, ?_, ?_⟩
  · intro ds hds
    rw [hmain] at hds
    cases hds
    by_cases hd : dry_run
    · simp [hd]
    · cases hf : scheds.find? (scheduleMatches cron db) <;> simp [hd, hf]
  · intro hf
    rw [hmain, hf]
    by_cases hd : dry_run <;> simp [hd]

/-- Witness for C6 at a concrete input: of two matching schedules after a
non-matching one, only the first match (`u1`) is deleted. -/
theorem claim_C6_delete_first_match_witness :
    delete_schedule "0 0 13 ? * 7 *" (.ok [⟨"main"⟩])
      (.ok [⟨"0 0 13 ? * 7 *", "dev", "u0"⟩, ⟨"0 0 13 ? * 7 *", "main", "u1"⟩,
        ⟨"0 0 13 ? * 7 *", "main", "u2"⟩]) false (fun _ => ⟨.obj none, 204, "No Content"⟩) =
      .ok (if false then []
        else match List.find? (scheduleMatches "0 0 13 ? * 7 *" (some "main"))
            [⟨"0 0 13 ? * 7 *", "dev", "u0"⟩, ⟨"0 0 13 ? * 7 *", "main", "u1"⟩,
             ⟨"0 0 13 ? * 7 *", "main", "u2"⟩] with
          | some s => [s.uuid]
          | none => []) :=
  (claim_C6_delete_first_match "0 0 13 ? * 7 *" (.ok [⟨"main"⟩])
    (.ok [⟨"0 0 13 ? * 7 *", "dev", "u0"⟩, ⟨"0 0 13 ? * 7 *", "main", "u1"⟩,
      ⟨"0 0 13 ? * 7 *", "main", "u2"⟩]) false (fun _ => ⟨.obj none, 204, "No Content"⟩)
    (some "main") _ rfl rfl).1

/-- C4 counterexample: when the call succeeds but neither `main` nor
`master` exists (empty `values`), `get_default_branch` raises `IndexError`
(`branches[0]`) instead of returning absent. -/
theorem claim_C4_counterexample :
    get_default_branch (ListResponse.ok ([] : List Branch)) = .error .indexError := rfl

/-- C4 (amended): `get_default_branch` returns the name of the first branch
of the (`main`/`master`-filtered) response, returns absent when the call
fails (error envelope or non-JSON body), and raises `IndexError` — rather
than returning absent — when the call succeeds but neither branch exists. -/
theorem claim_C4_default_branch :
    (∀ m, get_default_branch (ListResponse.errorEnvelope m) = .ok none) ∧
    (∀ r, get_default_branch (ListResponse.invalid r) = .ok none) ∧
    (∀ (b : Branch) bs, get_default_branch (ListResponse.ok (b :: bs)) = .ok (some b.name)) ∧
    get_default_branch (ListResponse.ok ([] : List Branch)) = .error .indexError :=
  ⟨fun _ => rfl, fun _ => rfl, fun _ _ => rfl, rfl⟩

/-- C3: contrary to the report-do-not-raise policy, `create_schedule`
iterates the schedule list without a `None` check, so when the schedule-list
lookup fails (here: an error envelope) it raises `TypeError` instead of
logging and returning normally. -/
theorem claim_C3_create_raises_on_failed_fetch :
    create_schedule "0 0 13 ? * 7 *" (.ok [⟨"main"⟩]) (.errorEnvelope "boom") false
      ⟨.obj none, 200, "OK"⟩ = .error .typeError := rfl

/-- C5 counterexample: in dry-run mode with a duplicate schedule present,
`create_schedule` reports the duplicate (the duplicate scan of lines 167-170
runs before the dry-run branch of lines 172-174) and does not report
eligibility — so the dry-run path does perform the duplicate check. -/
theorem claim_C5_counterexample :
    create_schedule "0 0 13 ? * 7 *" (.ok [⟨"main"⟩])
      (.ok [⟨"0 0 13 ? * 7 *", "main", "u1"⟩]) true ⟨.obj none, 200, "OK"⟩ =
      .ok .duplicateExists ∧
    create_schedule "0 0 13 ? * 7 *" (.ok [⟨"main"⟩])
      (.ok [⟨"0 0 13 ? * 7 *", "main", "u1"⟩]) true ⟨.obj none, 200, "OK"⟩ ≠
      .ok .eligibleDryRun := by
  constructor
  · rfl
  · decide

/-- C5 (amended): in dry-run mode `create_schedule` performs no network
mutation, and it performs the duplicate check first, exactly as the
non-dry-run path does: with a duplicate present it reports the duplicate,
otherwise it logs eligibility. -/
theorem claim_C5_dry_run_duplicate_check (cron : String) (branchResp : ListResponse Branch)
    (schedResp : ListResponse Schedule) (postResp : HttpResponse)
    (db : Option String) (scheds : List Schedule)
    (hb : get_default_branch branchResp = .ok db)
    (hs : get_schedules schedResp = some scheds) :
    create_schedule cron branchResp schedResp true postResp =
      .ok (if scheds.any (scheduleMatches cron db) then CreateOutcome.duplicateExists
        else CreateOutcome.eligibleDryRun) ∧
    (∀ out, create_schedule cron branchResp schedResp true postResp = .ok out →
      out.issuedPost = false) := by
  have hmain : create_schedule cron branchResp schedResp true postResp =
      .ok (if scheds.any (scheduleMatches cron db) then CreateOutcome.duplicateExists
        else CreateOutcome.eligibleDryRun) := by
    rw [create_schedule, hb, hs]
    cases hdup : scheds.any (scheduleMatches cron db) <;> simp [hdup]
  refine ⟨hmain, ?_⟩
  intro out hout
  rw [hmain] at hout
  cases hout
  cases hdup : scheds.any (scheduleMatches cron db) <;>
    simp [hdup, CreateOutcome.issuedPost]

/-- Witness for C5 (amended) at a concrete input. -/
theorem claim_C5_dry_run_duplicate_check_witness :
    create_schedule "0 0 13 ? * 7 *" (.ok [⟨"main"⟩])
      (.ok [⟨"0 0 13 ? * 7 *", "main", "u1"⟩]) true ⟨.obj none, 200, "OK"⟩ =
      .ok (if List.any [⟨"0 0 13 ? * 7 *", "main", "u1"⟩]
          (scheduleMatches "0 0 13 ? * 7 *" (some "main")) then
        CreateOutcome.duplicateExists else CreateOutcome.eligibleDryRun) :=
  (claim_C5_dry_run_duplicate_check "0 0 13 ? * 7 *" (.ok [⟨"main"⟩])
    (.ok [⟨"0 0 13 ? * 7 *", "main", "u1"⟩]) ⟨.obj none, 200, "OK"⟩
    (some "main") _ rfl rfl).1


/-! ## Theorems: Override Filter and Catalog Client -/

/-- `reSearch` succeeds exactly when some contiguous substring is in the
pattern's language. -/
theorem reSearch_iff (p : RegularExpression Char) (s : List Char) :
    reSearch p s = true ↔ ∃ t u v, s = u ++ t ++ v ∧ t ∈ p.matches' := by
  rw [reSearch]
  simp only [List.any_eq_true, List.mem_tails, List.mem_inits]
  constructor
  · rintro ⟨suf, hsuf, t, ht, hm⟩
    obtain ⟨u, hu⟩ := hsuf
    obtain ⟨v, hv⟩ := ht
    refine ⟨t, u, v, ?_, (RegularExpression.rmatch_iff_matches' p t).mp hm⟩
    rw [← hu, ← hv, List.append_assoc]
  · rintro ⟨t, u, v, hsv, hm⟩
    refine ⟨t ++ v, ⟨u, ?_⟩, t, ⟨v, rfl⟩, (RegularExpression.rmatch_iff_matches' p t).mpr hm⟩
    rw [hsv, List.append_assoc]

/-- C8: `match_override` is true exactly when some pattern of the override
set has an unanchored substring match in the identifier (some contiguous
substring of the identifier lies in the pattern's language); an empty
override set excludes nothing. -/
theorem claim_C8_override_matching :
    (∀ (r : String) (P : List (RegularExpression Char)),
      match_override r P = true ↔
        ∃ p ∈ P, ∃ t u v, r.data = u ++ t ++ v ∧ t ∈ p.matches') ∧
    (∀ r : String, match_override r [] = false) := by
  constructor
  · intro r P
    rw [match_override, List.any_eq_true]
    constructor
    · rintro ⟨p, hp, hm⟩
      exact ⟨p, hp, (reSearch_iff p r.data).mp hm⟩
    · rintro ⟨p, hp, hm⟩
      exact ⟨p, hp, (reSearch_iff p r.data).mpr hm⟩
  · intro r
    rfl

/-- The pagination loop accumulates exactly the extracted slugs of the pages
it processes. -/
theorem catalogLoop_eq (fetch : Nat → CatalogResponse) :
    ∀ (fuel page : Nat) (acc : List String),
    catalogLoop fetch fuel page acc =
      acc ++ (catalogEntries fetch fuel page).filterMap extractSlug := by
  intro fuel
  induction fuel with
  | zero =>
    intro page acc
    simp [catalogLoop, catalogEntries]
  | succ n ih =>
    intro page acc
    rw [catalogLoop, catalogEntries]
    cases hf : fetch page with
    | errors m => simp
    | data entries =>
      by_cases he : entries.isEmpty
      · simp [he]
      · simp [he, ih, List.filterMap_append, List.append_assoc]

/-- Slug extraction never yields the sentinel `"workspace"`. -/
theorem extractSlug_ne_workspace (svc : Service) (s : String)
    (h : extractSlug svc = some s) : s ≠ "workspace" := by
  simp only [extractSlug] at h
  split at h
  · cases h
  · next hne =>
    injection h with h
    rw [← h]
    exact hne

/-- C9: a caller-supplied non-empty repository list is returned verbatim,
independently of the catalog (no remote call can influence the result); and
catalog enumeration yields exactly the extracted slugs of the processed
pages, with every entry whose extracted path segment equals `"workspace"`
excluded. -/
theorem claim_C9_enumeration :
    (∀ (repositories : List String) (fetch fetch' : Nat → CatalogResponse)
        (fuel fuel' : Nat), repositories ≠ [] →
      activeServices repositories fetch fuel = repositories ∧
      activeServices repositories fetch fuel = activeServices repositories fetch' fuel') ∧
    (∀ (fetch : Nat → CatalogResponse) (fuel : Nat),
      get_active_services fetch fuel =
        (catalogEntries fetch fuel 0).filterMap extractSlug ∧
      "workspace" ∉ get_active_services fetch fuel) := by
  constructor
  · intro repositories fetch fetch' fuel fuel' hne
    have h : activeServices repositories fetch fuel = repositories := by
      rw [activeServices, if_pos]
      simp [List.isEmpty_iff, hne]
    have h' : activeServices repositories fetch' fuel' = repositories := by
      rw [activeServices, if_pos]
      simp [List.isEmpty_iff, hne]
    exact ⟨h, h.trans h'.symm⟩
  · intro fetch fuel
    have hform : get_active_services fetch fuel =
        (catalogEntries fetch fuel 0).filterMap extractSlug := by
      rw [get_active_services, catalogLoop_eq]
      rfl
    refine ⟨hform, ?_⟩
    rw [hform]
    intro hmem
    obtain ⟨svc, _, hsvc⟩ := List.mem_filterMap.mp hmem
    exact extractSlug_ne_workspace svc _ hsvc rfl

/-- Witness for C9 at concrete inputs: an explicit list survives a failing
catalog verbatim, and a catalog page containing a `"workspace"` entry
contributes no `"workspace"` element. -/
theorem claim_C9_enumeration_witness :
    activeServices ["repo-a", "repo-b"] (fun _ => .errors "down") 3 = ["repo-a", "repo-b"] ∧
    "workspace" ∉ get_active_services
      (fun page => if page = 0 then
        .data [⟨["https", "", "bitbucket.org", "ws", "workspace"]⟩,
               ⟨["https", "", "bitbucket.org", "ws", "repo-c"]⟩]
        else .data []) 3 :=
  ⟨(claim_C9_enumeration.1 ["repo-a", "repo-b"] (fun _ => .errors "down")
      (fun _ => .errors "down") 3 3 (by decide)).1,
   (claim_C9_enumeration.2 (fun page => if page = 0 then
        .data [⟨["https", "", "bitbucket.org", "ws", "workspace"]⟩,
               ⟨["https", "", "bitbucket.org", "ws", "repo-c"]⟩]
        else .data []) 3).2⟩


/-! ## Theorems: Reconciler -/

/-- C2: for a candidate repository not excluded by the override filter:
when the build-history fetch yields absent or an empty list, no mutating
request is issued for it and the loop continues with the remaining
repositories; otherwise `delete_schedule` is invoked exactly when the
classifier verdict is "in development" and `create_schedule` exactly when it
is "not in development". -/
theorem claim_C2_reconciler_dispatch (cron : String) (w : World)
    (override : List (RegularExpression Char)) (dry_run test : Bool)
    (now : DateTime) (service : String)
    (hexc : (!override.isEmpty && match_override service override) = false) :
    ((get_latest_pipelines (w.pipelinesResp service) = none ∨
      get_latest_pipelines (w.pipelinesResp service) = some []) →
      processOne cron w override dry_run test now service = .ok [] ∧
      ∀ rest, processList cron w override dry_run test now (service :: rest) =
        (processList cron w override dry_run test now rest).map
          (fun others => (service, []) :: others)) ∧
    (∀ p ps, get_latest_pipelines (w.pipelinesResp service) = some (p :: ps) →
      processOne cron w override dry_run test now service =
        match check_development_status (p :: ps) now test with
        | .error e => .error e
        | .ok in_development =>
          if in_development then
            (delete_schedule cron (w.branchesResp service) (w.schedulesResp service)
              dry_run (w.deleteResp service)).map deleteInvs
          else
            (create_schedule cron (w.branchesResp service) (w.schedulesResp service)
              dry_run (w.createResp service)).map createInvs) := by
  constructor
  · intro hskip
    have hone : processOne cron w override dry_run test now service = .ok [] := by
      rw [processOne, hexc]
      rcases hskip with h | h <;> simp [h]
    refine ⟨hone, ?_⟩
    intro rest
    cases hrest : processList cron w override dry_run test now rest <;>
      simp [processList, hone, hrest, Except.map]
  · intro p ps hps
    rw [processOne, hexc]
    simp [hps]

/-- Witness for C2 at a concrete world whose build-history fetch returns an
empty list: the repository is skipped with no mutating request. -/
theorem claim_C2_reconciler_dispatch_witness :
    (processOne "0 0 13 ? * 7 *"
      ⟨fun _ => .errors "down", fun _ => .ok [], fun _ => .ok [⟨"main"⟩],
       fun _ => .ok [], fun _ _ => ⟨.obj none, 204, "No Content"⟩,
       fun _ => ⟨.obj none, 200, "OK"⟩⟩
      [] false false ⟨2024, 1, 10, 0, 0, 0, 0⟩ "svc-a" = .ok [] ∧
    ∀ rest, processList "0 0 13 ? * 7 *"
      ⟨fun _ => .errors "down", fun _ => .ok [], fun _ => .ok [⟨"main"⟩],
       fun _ => .ok [], fun _ _ => ⟨.obj none, 204, "No Content"⟩,
       fun _ => ⟨.obj none, 200, "OK"⟩⟩
      [] false false ⟨2024, 1, 10, 0, 0, 0, 0⟩ ("svc-a" :: rest) =
      (processList "0 0 13 ? * 7 *"
        ⟨fun _ => .errors "down", fun _ => .ok [], fun _ => .ok [⟨"main"⟩],
         fun _ => .ok [], fun _ _ => ⟨.obj none, 204, "No Content"⟩,
         fun _ => ⟨.obj none, 200, "OK"⟩⟩
        [] false false ⟨2024, 1, 10, 0, 0, 0, 0⟩ rest).map
        (fun others => ("svc-a", []) :: others)) :=
  (claim_C2_reconciler_dispatch "0 0 13 ? * 7 *"
    ⟨fun _ => .errors "down", fun _ => .ok [], fun _ => .ok [⟨"main"⟩],
     fun _ => .ok [], fun _ _ => ⟨.obj none, 204, "No Content"⟩,
     fun _ => ⟨.obj none, 200, "OK"⟩⟩
    [] false false ⟨2024, 1, 10, 0, 0, 0, 0⟩ "svc-a" rfl).1 (Or.inr rfl)


end WeeklyBuildScheduler
